import Mathlib

/-!
Shallow embedding of `src/sentiment_analyzer.py`.

The module wraps a remote chat-completion call: `get_openai_sentiment`
normalizes the reply and maps it to a sentiment label with a substring
fallback, and `analyze_news_item_sentiment` builds the text to analyze from
the `Headline` and `Description` fields of a news dictionary and forwards it.

The remote call is modelled by an oracle argument of type
`Except Unit String`: `.ok reply` stands for a completed call whose
extracted text is `completion.choices[0].message.content`, and `.error ()`
stands for the call raising any exception (transport, authentication,
quota, or unexpected).  Each function returns an `Outcome` recording both
the string result and whether the remote call was reached, so that the
"no remote call is made" parts of the specification are statable.

String helpers mirror the Python string methods used by the source
(`str.strip`, `str.lower`, `str.isspace`, substring membership `in`,
slicing, and `str.join`) over `List Char`, restricted to ASCII whitespace
and ASCII case folding, which is all the control flow of the source
depends on.
-/

namespace SentimentAnalyzer

/-- ASCII whitespace, as recognized by Python `str.isspace` / `str.strip`
(Python additionally recognizes Unicode spaces, which never occur in the
label strings this program compares against). -/
def pySpaceChar (c : Char) : Bool :=
  c = ' ' || c = '\t' || c = '\n' || c = '\r' || c = '\x0b' || c = '\x0c'

/-- Python `str.strip()`: drop leading and trailing whitespace. -/
def pyStrip (s : String) : String :=
  String.mk (((s.data.dropWhile pySpaceChar).reverse.dropWhile pySpaceChar).reverse)

/-- Python `str.lower()` (ASCII case folding, via `Char.toLower`). -/
def pyLower (s : String) : String :=
  String.mk (s.data.map Char.toLower)

/-- Normalization applied on line 55 of the source: strip then lower. -/
def pyNormalize (s : String) : String :=
  pyLower (pyStrip s)

/-- Python `str.isspace()`: non-empty and every character is whitespace. -/
def pyIsSpace (s : String) : Bool :=
  !s.data.isEmpty && s.data.all pySpaceChar

/-- Tests whether the first character list is a prefix of the second. -/
def isPrefixChars : List Char → List Char → Bool
  | [], _ => true
  | _ :: _, [] => false
  | a :: as, b :: bs => a = b && isPrefixChars as bs

/-- Tests whether `needle` occurs somewhere in the second list. -/
def containsFrom (needle : List Char) : List Char → Bool
  | [] => isPrefixChars needle []
  | b :: bs => isPrefixChars needle (b :: bs) || containsFrom needle bs

/-- Python substring membership: `needle in haystack`. -/
def strContains (haystack needle : String) : Bool :=
  containsFrom needle.data haystack.data

/-- Python `sep.join(parts)`. -/
def pyJoin (sep : String) : List String → String
  | [] => ""
  | [x] => x
  | x :: y :: rest => x ++ sep ++ pyJoin sep (y :: rest)

/-- Result of one classifier invocation: the returned string, and whether
the remote chat-completion call was reached (used to state the
"without a remote call" clauses of the specification). -/
structure Outcome where
  result : String
  remoteCalled : Bool
deriving DecidableEq

/-- Lines 55-65 of the source, applied to the normalized reply
`sentiment = completion.choices[0].message.content.strip().lower()`:
exact membership in `["positive", "negative"]`, then the substring
fallback, then `"neutral"`. -/
def pyClassify (sentiment : String) : String :=
  if sentiment = "positive" ∨ sentiment = "negative" then sentiment
  else if strContains sentiment "positive" = true then "positive"
  else if strContains sentiment "negative" = true then "negative"
  else "neutral"

/-- The reply-processing part of `get_openai_sentiment`: normalize the raw
reply text and classify it. -/
def parse_sentiment_reply (reply : String) : String :=
  pyClassify (pyNormalize reply)

/-- Embedding of `get_openai_sentiment` (lines 22-69).  The `model` and `temperature`
arguments of the source only parametrize the remote request and never the
control flow, so they are absorbed into the `remote` oracle.  The guard is
line 34 (`if not text_content or text_content.isspace()`); the `except`
branch of lines 67-69 is the `.error` case of the oracle. -/
def get_openai_sentiment (text_content : String) (remote : Except Unit String) : Outcome :=
  if text_content = "" ∨ pyIsSpace text_content = true then
    ⟨"neutral", false⟩
  else
    match remote with
    | .ok reply => ⟨parse_sentiment_reply reply, true⟩
    | .error _ => ⟨"error", true⟩

/-- The fields of the input dictionary the classifier reads:
`news_data.get("Headline", "")`, `news_data.get("Description", "")`,
and `news_data.get("URL", "N/A")` (the URL is used only in log messages). -/
structure NewsDict where
  headline : String
  description : String
  url : String
deriving DecidableEq

/-- Input to `analyze_news_item_sentiment`: either a dictionary or any
non-dictionary value (line 91, `if not isinstance(news_data, dict)`). -/
inductive NewsInput where
  | dict (d : NewsDict)
  | nonDict
deriving DecidableEq

/-- Lines 105-108: the slice `description[:3000]`, with `"..."` appended
when the description is longer than 3000 characters (Python `len` counts
characters). -/
def truncated_description (description : String) : String :=
  if 3000 < description.length then String.mk (description.data.take 3000) ++ "..."
  else String.mk (description.data.take 3000)

/-- Lines 98-109: the `text_for_analysis` list, in source order — the
headline entry (when the headline is non-empty, Python truthiness) followed
by the description entry (when the description is non-empty). -/
def text_for_analysis (headline description : String) : List String :=
  (if headline = "" then [] else ["Headline: " ++ headline]) ++
    (if description = "" then [] else ["Description: " ++ truncated_description description])

/-- Line 115: `combined_text = "\n\n".join(text_for_analysis)`. -/
def combined_text (headline description : String) : String :=
  pyJoin "\n\n" (text_for_analysis headline description)

/-- Embedding of `analyze_news_item_sentiment` (lines 72-121): reject non-dictionary
input with `"error"`, return `"neutral"` when there is no text to analyze,
otherwise forward the combined text to `get_openai_sentiment`. -/
def analyze_news_item_sentiment (news_data : NewsInput) (remote : Except Unit String) : Outcome :=
  match news_data with
  | .nonDict => ⟨"error", false⟩
  | .dict d =>
    if text_for_analysis d.headline d.description = [] then ⟨"neutral", false⟩
    else get_openai_sentiment (combined_text d.headline d.description) remote

/-- Outcome of importing the module (lines 7-15 of the source). -/
inductive InitResult where
  | crashed
  | exited
  | configured
deriving DecidableEq

/-- Module initialization, as a function of the `OPENAI_API_KEY`
environment value (lines 9-15).  When the variable is unset,
`os.environ["OPENAI_API_KEY"] = None` raises `TypeError`, so the import
crashes before the guard on line 11 can run (`crashed`).  When it is the
empty string, the guard on lines 11-13 prints an error and calls `exit()`
(`exited`).  Otherwise the `OpenAI()` client is constructed and the module
loads (`configured`); note that an invalid but non-empty key still reaches
`configured`, since the client constructor does not validate the key. -/
def module_init : Option String → InitResult
  | none => .crashed
  | some k => if k = "" then .exited else .configured

/-- Content block as claim C2 words it: a Description line first (with the
raw description), then a Title line, labels Description and Title.  This
definition follows the words of the claim, for comparison against
`combined_text`, which follows the source. -/
def spec_claimed_content (title description : String) : String :=
  if description = "" then
    (if title = "" then "" else "Title: " ++ title)
  else
    (if title = "" then "Description: " ++ description
     else "Description: " ++ description ++ "\n" ++ "Title: " ++ title)

/-- Character count of a string is the length of its character list. -/
lemma string_length_data (s : String) : s.length = s.data.length := by
  obtain ⟨l⟩ := s
  rfl

/-- Each branch of the classification on lines 55-65 returns a member of
the three-label list. -/
lemma pyClassify_mem (s : String) :
    pyClassify s ∈ (["positive", "negative", "neutral"] : List String) := by
  unfold pyClassify
  split
  · next h => rcases h with h | h <;> simp [h]
  · split
    · simp
    · split <;> simp

/-- Reply parsing only ever produces one of the three sentiment labels. -/
lemma parse_sentiment_reply_mem (r : String) :
    parse_sentiment_reply r ∈ (["positive", "negative", "neutral"] : List String) :=
  pyClassify_mem (pyNormalize r)

/-- Reply parsing never produces the error sentinel. -/
lemma parse_sentiment_reply_ne_error (r : String) :
    parse_sentiment_reply r ≠ "error" := by
  have h := parse_sentiment_reply_mem r
  intro he
  rw [he] at h
  revert h
  decide

/-- The helper that performs the remote call only ever returns one of the
four sentiment values. -/
lemma get_openai_result_mem (t : String) (remote : Except Unit String) :
    (get_openai_sentiment t remote).result ∈
      (["positive", "negative", "neutral", "error"] : List String) := by
  simp only [get_openai_sentiment]
  by_cases h : t = "" ∨ pyIsSpace t = true
  · rw [if_pos h]
    decide
  · rw [if_neg h]
    cases remote with
    | error e =>
      show ("error" : String) ∈ (["positive", "negative", "neutral", "error"] : List String)
      decide
    | ok reply =>
      show parse_sentiment_reply reply ∈ _
      have h3 := parse_sentiment_reply_mem reply
      simp only [List.mem_cons, List.not_mem_nil, or_false] at h3 ⊢
      tauto

/-- Claim C1: after trimming surrounding whitespace and lowercasing, the
classifier returns the reply verbatim when it is exactly positive, negative
or neutral; for any other non-empty normalized text it returns positive
when the text contains the substring positive, else negative when it
contains the substring negative, and otherwise neutral. -/
theorem c1_reply_classification (reply : String) :
    ((pyNormalize reply = "positive" ∨ pyNormalize reply = "negative" ∨
        pyNormalize reply = "neutral") →
      parse_sentiment_reply reply = pyNormalize reply) ∧
    (pyNormalize reply ≠ "positive" → pyNormalize reply ≠ "negative" →
      pyNormalize reply ≠ "neutral" → pyNormalize reply ≠ "" →
      parse_sentiment_reply reply =
        (if strContains (pyNormalize reply) "positive" = true then "positive"
         else if strContains (pyNormalize reply) "negative" = true then "negative"
         else "neutral")) := by
  constructor
  · intro h
    show pyClassify (pyNormalize reply) = pyNormalize reply
    rcases h with h | h | h <;> rw [h] <;> decide
  · intro h1 h2 _h3 _h4
    show pyClassify (pyNormalize reply) = _
    unfold pyClassify
    have hne : ¬(pyNormalize reply = "positive" ∨ pyNormalize reply = "negative") := by
      rintro (h | h)
      exacts [h1 h, h2 h]
    rw [if_neg hne]

/-- Witness for claim C1, at the replies of the specification examples. -/
theorem c1_witness :
    parse_sentiment_reply "I think this is negative overall" = "negative" ∧
    parse_sentiment_reply " Positive " = "positive" := by
  constructor
  · rw [(c1_reply_classification "I think this is negative overall").2
      (by decide) (by decide) (by decide) (by decide)]
    decide
  · rw [(c1_reply_classification " Positive ").1 (Or.inl (by decide))]
    decide

/-- Claim C2 counterexample: the code emits the headline line first, with
label Headline, then the description line — not a Description line followed
by a Title line as the claim states.  At title Apple and description
Banana, the code produces the combined text
"Headline: Apple\n\nDescription: Banana", which differs from the block
"Description: Banana\nTitle: Apple" described by the claim. -/
theorem c2_counterexample :
    combined_text "Apple" "Banana" ≠ spec_claimed_content "Apple" "Banana" := by
  decide

/-- Claim C2 as amended: the content block puts the headline line first
(label Headline, present when the title is non-empty), then the description
line (label Description, carrying the truncated description), joined by a
blank line. -/
theorem c2_amended (t d : String) :
    combined_text t d =
      (if t = "" then
        (if d = "" then "" else "Description: " ++ truncated_description d)
      else
        (if d = "" then "Headline: " ++ t
         else "Headline: " ++ t ++ "\n\n" ++ ("Description: " ++ truncated_description d))) := by
  unfold combined_text text_for_analysis
  by_cases ht : t = "" <;> by_cases hd : d = "" <;> simp [ht, hd, pyJoin]

/-- Claim C3 counterexample: with a whitespace-only headline (truthy in
Python) and an empty description, the code does build a prompt and makes a
remote call, and with the mocked reply positive it returns positive, not
neutral. -/
theorem c3_counterexample :
    (analyze_news_item_sentiment (.dict ⟨" ", "", "N/A"⟩) (.ok "positive")).result ≠ "neutral" ∧
    (analyze_news_item_sentiment (.dict ⟨" ", "", "N/A"⟩) (.ok "positive")).remoteCalled = true := by
  decide

/-- Claim C3 as amended: for every NewsItem whose title and description are
both empty strings, the classifier returns neutral and performs no remote
call (whitespace-only fields are treated as content and do trigger a
call). -/
theorem c3_amended (url : String) (remote : Except Unit String) :
    analyze_news_item_sentiment (.dict ⟨"", "", url⟩) remote = ⟨"neutral", false⟩ := rfl

/-- Claim C4 counterexample: a non-dictionary input makes the classifier
return error although the remote oracle raises nothing (indeed no remote
call is attempted) and the capability is configured — a third error path
beyond the exception branch and the not-configured precondition that the
claim says are the only ones. -/
theorem c4_counterexample :
    (analyze_news_item_sentiment NewsInput.nonDict (.ok "positive")).result = "error" ∧
    (analyze_news_item_sentiment NewsInput.nonDict (.ok "positive")).remoteCalled = false ∧
    (Except.ok "positive" : Except Unit String) ≠ .error () := by
  refine ⟨rfl, rfl, by simp⟩

/-- Claim C4 as amended: when the remote call raises, the classifier
catches it and returns error (no exception escapes, the embedding being
total), and the exception branch and the non-dictionary input check are
the only paths that produce error. -/
theorem c4_amended :
    (∀ (d : NewsDict) (remote : Except Unit String),
      (analyze_news_item_sentiment (.dict d) remote).remoteCalled = true →
      remote = .error () →
      (analyze_news_item_sentiment (.dict d) remote).result = "error") ∧
    (∀ (input : NewsInput) (remote : Except Unit String),
      (analyze_news_item_sentiment input remote).result = "error" →
      input = .nonDict ∨ remote = .error ()) := by
  constructor
  · intro d remote hc he
    subst he
    simp only [analyze_news_item_sentiment] at hc ⊢
    by_cases h1 : text_for_analysis d.headline d.description = []
    · rw [if_pos h1] at hc
      exact absurd hc (by decide)
    · rw [if_neg h1] at hc ⊢
      simp only [get_openai_sentiment] at hc ⊢
      by_cases h2 : combined_text d.headline d.description = "" ∨
          pyIsSpace (combined_text d.headline d.description) = true
      · rw [if_pos h2] at hc
        exact absurd hc (by decide)
      · rw [if_neg h2]
  · intro input remote hres
    cases input with
    | nonDict => exact Or.inl rfl
    | dict d =>
      refine Or.inr ?_
      cases remote with
      | error e => cases e; rfl
      | ok reply =>
        exfalso
        simp only [analyze_news_item_sentiment] at hres
        by_cases h1 : text_for_analysis d.headline d.description = []
        · rw [if_pos h1] at hres
          exact absurd hres (by decide)
        · rw [if_neg h1] at hres
          simp only [get_openai_sentiment] at hres
          by_cases h2 : combined_text d.headline d.description = "" ∨
              pyIsSpace (combined_text d.headline d.description) = true
          · rw [if_pos h2] at hres
            exact absurd hres (by decide)
          · rw [if_neg h2] at hres
            exact parse_sentiment_reply_ne_error reply hres

/-- Witness for claim C4 as amended: a concrete dictionary input whose
remote call raises yields the error result. -/
theorem c4_amended_witness :
    (analyze_news_item_sentiment (.dict ⟨"FCC Applications", "", "N/A"⟩)
      (.error ())).result = "error" :=
  c4_amended.1 ⟨"FCC Applications", "", "N/A"⟩ (.error ()) (by decide) rfl

/-- Claim C5: a remote completion from which no text can be extracted (an
empty string, in particular a blocked response surfaced as empty text)
makes the classifier return neutral, never error. -/
theorem c5_empty_completion (text_content reply : String) (h : pyStrip reply = "") :
    (get_openai_sentiment text_content (.ok reply)).result = "neutral" := by
  have hn : pyNormalize reply = "" := by
    unfold pyNormalize
    rw [h]
    decide
  simp only [get_openai_sentiment]
  by_cases hg : text_content = "" ∨ pyIsSpace text_content = true
  · rw [if_pos hg]
  · rw [if_neg hg]
    show parse_sentiment_reply reply = "neutral"
    show pyClassify (pyNormalize reply) = "neutral"
    rw [hn]
    decide

/-- Witness for claim C5: the empty-reply example of the specification. -/
theorem c5_witness :
    (get_openai_sentiment "Headline: FCC Applications" (.ok "")).result = "neutral" :=
  c5_empty_completion "Headline: FCC Applications" "" rfl

/-- Claim C6 counterexample: a process whose credential is missing crashes
at import (the assignment into the environment raises before the guard),
and one whose credential is empty exits at the guard; neither reaches the
configured state, so there is no unconfigured-but-running process in which
calls could return error without a remote call, contrary to the claim. -/
theorem c6_counterexample :
    module_init none ≠ InitResult.configured ∧
    module_init (some "") ≠ InitResult.configured := by
  decide

/-- Claim C6 as amended: module initialization reaches the configured
state exactly when a non-empty credential is present; with the credential
missing or empty the process terminates at import, so no classifier call
is ever made in an unconfigured process and no call returns error for the
not-configured case. -/
theorem c6_amended (k : Option String) :
    module_init k = InitResult.configured ↔ ∃ s, k = some s ∧ s ≠ "" := by
  cases k with
  | none => simp [module_init]
  | some s => by_cases h : s = "" <;> simp [module_init, h]

/-- Claim C7: for every input and every remote outcome, the classifier
returns one of exactly the four values positive, negative, neutral, error,
and never any other text. -/
theorem c7_four_values :
    (∀ (input : NewsInput) (remote : Except Unit String),
      (analyze_news_item_sentiment input remote).result ∈
        (["positive", "negative", "neutral", "error"] : List String)) ∧
    (∀ (t : String) (remote : Except Unit String),
      (get_openai_sentiment t remote).result ∈
        (["positive", "negative", "neutral", "error"] : List String)) := by
  constructor
  · intro input remote
    cases input with
    | nonDict =>
      show ("error" : String) ∈ (["positive", "negative", "neutral", "error"] : List String)
      decide
    | dict d =>
      simp only [analyze_news_item_sentiment]
      by_cases h1 : text_for_analysis d.headline d.description = []
      · rw [if_pos h1]
        decide
      · rw [if_neg h1]
        exact get_openai_result_mem _ _
  · intro t remote
    exact get_openai_result_mem t remote

/-- Claim C8: the classifier is deterministic given the remote reply — two
invocations with identical input and identical remote outcome yield
identical results; the embedding exhibits the result as a function of the
input and the remote outcome alone, with no other state. -/
theorem c8_deterministic (i1 i2 : NewsInput) (r1 r2 : Except Unit String)
    (hi : i1 = i2) (hr : r1 = r2) :
    analyze_news_item_sentiment i1 r1 = analyze_news_item_sentiment i2 r2 := by
  rw [hi, hr]

/-- Witness for claim C8 at a concrete input and reply. -/
theorem c8_witness :
    analyze_news_item_sentiment (.dict ⟨"Crash closes lanes", "", "N/A"⟩) (.ok "negative") =
      analyze_news_item_sentiment (.dict ⟨"Crash closes lanes", "", "N/A"⟩) (.ok "negative") :=
  c8_deterministic _ _ _ _ rfl rfl

/-- Claim C9: a description longer than 3000 characters is sent as its
first 3000 characters followed by an ellipsis; a description of at most
3000 characters is included unchanged; when the description is non-empty,
the description entry of the analyzed text carries exactly this truncated
form. -/
theorem c9_truncation (t d : String) :
    (truncated_description d =
      (if 3000 < d.length then String.mk (d.data.take 3000) ++ "..." else d)) ∧
    (d = "" ∨ ("Description: " ++ truncated_description d) ∈ text_for_analysis t d) := by
  constructor
  · unfold truncated_description
    by_cases h : 3000 < d.length
    · simp only [if_pos h]
    · simp only [if_neg h]
      have hlen : d.data.length ≤ 3000 := by
        rw [← string_length_data]
        exact Nat.le_of_not_lt h
      rw [List.take_of_length_le hlen]
  · by_cases hd : d = ""
    · exact Or.inl hd
    · refine Or.inr ?_
      unfold text_for_analysis
      rw [if_neg hd]
      by_cases ht : t = "" <;> simp [ht]

/-- Claim C10: a non-dictionary input makes the classifier return error
immediately, without attempting a remote call. -/
theorem c10_non_dict (remote : Except Unit String) :
    analyze_news_item_sentiment NewsInput.nonDict remote = ⟨"error", false⟩ := rfl

end SentimentAnalyzer
